import Mathlib

/-!
# Verification of the CLINITY clinical-state compiler core

Shallow embedding of the compilation core of the CLINITY repository
(`src/compiler/safety.py`, `src/compiler/multipass.py`,
`src/compiler/medgemma.py`, `src/compiler/compiler.py`) together with
proofs settling the frozen claims about it.

Modelling conventions:
* Python strings are Lean `String`s / `List Char`; Python's `str.lower`,
  `str.strip`, `str.title`, `str.upper`, `str.split` and the `in`
  substring operator are embedded as executable functions below.
* Python `re.finditer` with the specific patterns of `safety.py` is
  embedded through a small backtracking matcher combinator library whose
  result lists are ordered exactly like CPython's backtracking order
  (alternatives in written order, greedy quantifiers longest-first,
  later quantifiers backtracked before earlier ones); the scanner takes
  the first result at the leftmost matching position and resumes after
  the match, which is `finditer`'s behaviour.
* Python floats are embedded as rationals (`ℚ`); every numeric literal
  involved (0.9, 0.7, 0.4, 0.8 and the lab thresholds) and every
  arithmetic step used by the claims is exact in both systems.
* Fallible Python code (dynamic attribute/type errors, `raise`) is
  embedded with `Except String`.
-/

deriving instance DecidableEq for Except

namespace Clinity

abbrev Chars := List Char

/-- The `{` character (written via its code point). -/
def lbrace : Char := Char.ofNat 123

/-- The `}` character (written via its code point). -/
def rbrace : Char := Char.ofNat 125

/-- Python `str.isspace` set used by `\s`, `str.split()` and `str.strip()`:
space, tab, newline, carriage return, form feed, vertical tab. -/
def isPySpace (c : Char) : Bool :=
  c = ' ' || c = '\t' || c = '\n' || c = '\x0d' || c = '\x0b' || c = '\x0c'

/-- ASCII lower-casing of one character, as Python `str.lower` acts on the
ASCII inputs this development evaluates. -/
def pyLowerChar (c : Char) : Char :=
  if 'A' ≤ c ∧ c ≤ 'Z' then Char.ofNat (c.toNat + 32) else c

/-- ASCII upper-casing of one character (Python `str.upper`). -/
def pyUpperChar (c : Char) : Char :=
  if 'a' ≤ c ∧ c ≤ 'z' then Char.ofNat (c.toNat - 32) else c

def pyLowerChars (cs : Chars) : Chars := cs.map pyLowerChar

def pyLowerStr (s : String) : String := String.mk (pyLowerChars s.toList)

def pyUpperStr (s : String) : String := String.mk (s.toList.map pyUpperChar)

/-- Python `str.strip()` on character lists. -/
def pyStripChars (cs : Chars) : Chars :=
  ((cs.dropWhile isPySpace).reverse.dropWhile isPySpace).reverse

def pyStripStr (s : String) : String := String.mk (pyStripChars s.toList)

def isAsciiAlpha (c : Char) : Bool :=
  ('a' ≤ c ∧ c ≤ 'z') || ('A' ≤ c ∧ c ≤ 'Z')

/-- Regex word character (`\w`): letters, digits, underscore. -/
def isWordChar (c : Char) : Bool :=
  isAsciiAlpha c || c.isDigit || c = '_'

/-- Python `str.title()` on the ASCII inputs this development evaluates:
a letter is upper-cased when the previous character is not a letter and
lower-cased otherwise. -/
def pyTitleChars : Chars → Bool → Chars
  | [], _ => []
  | c :: cs, prevAlpha =>
    if isAsciiAlpha c then
      (if prevAlpha then pyLowerChar c else pyUpperChar c) :: pyTitleChars cs true
    else
      c :: pyTitleChars cs false

def pyTitleStr (s : String) : String := String.mk (pyTitleChars s.toList false)

/-- Substring test on character lists. -/
def isSubChars (needle : Chars) : Chars → Bool
  | [] => needle.isEmpty
  | c :: rest => needle.isPrefixOf (c :: rest) || isSubChars needle rest

/-- Python substring test `needle in hay`. -/
def containsStr (hay needle : String) : Bool :=
  isSubChars needle.toList hay.toList

/-- First index of `needle` in `hay` (Python `str.find` for present needles). -/
def firstIdxAux (hay needle : Chars) (i : Nat) : Option Nat :=
  match hay with
  | [] => if needle.isEmpty then some i else none
  | _ :: rest =>
    if needle.isPrefixOf hay then some i else firstIdxAux rest needle (i + 1)

def firstIdx (hay needle : Chars) : Option Nat := firstIdxAux hay needle 0

/-- `cs[a:b]` (Python slice with non-negative clamped bounds). -/
def slice (cs : Chars) (a b : Nat) : Chars := (cs.drop a).take (b - a)

/-- Helper for `splitWS`: `acc` is the current word, reversed. -/
def splitWSAux : Chars → Chars → List Chars
  | [], acc => if acc.isEmpty then [] else [acc.reverse]
  | c :: rest, acc =>
    if isPySpace c then
      (if acc.isEmpty then [] else [acc.reverse]) ++ splitWSAux rest []
    else splitWSAux rest (c :: acc)

/-- Python `str.split()`: split on runs of whitespace, no empty fields. -/
def splitWS (cs : Chars) : List Chars := splitWSAux cs []

/-! ## Backtracking matcher combinators

A `Matcher` returns, for an input suffix, the list of possible matches
at its start as `(consumed length, capture group 1)`, in CPython
backtracking priority order.  The head of the list is the match the
Python engine commits to. -/

def Matcher := Chars → List (Nat × Option Chars)

/-- Literal string. -/
def litM (w : Chars) : Matcher := fun s =>
  if w.isPrefixOf s then [(w.length, none)] else []

def strM (w : String) : Matcher := litM w.toList

/-- Alternation, alternatives tried in written order. -/
def altM (ms : List Matcher) : Matcher := fun s => ms.flatMap (fun m => m s)

/-- Sequencing; the later component is backtracked first, as in CPython. -/
def seqM (m1 m2 : Matcher) : Matcher := fun s =>
  (m1 s).flatMap fun p =>
    (m2 (s.drop p.1)).map fun q => (p.1 + q.1, p.2.orElse (fun _ => q.2))

def chainM : List Matcher → Matcher
  | [] => fun _ => [(0, none)]
  | [m] => m
  | m :: ms => seqM m (chainM ms)

/-- Greedy `?`: try the subpattern first, then the empty match. -/
def optM (m : Matcher) : Matcher := fun s => m s ++ [(0, none)]

/-- Greedy `X*` for a character class: longest run first, giving back. -/
def starC (p : Char → Bool) : Matcher := fun s =>
  let n := (s.takeWhile p).length
  (List.range (n + 1)).map (fun k => (n - k, (none : Option Chars)))

/-- Greedy `X+` for a character class. -/
def plusC (p : Char → Bool) : Matcher := fun s =>
  let n := (s.takeWhile p).length
  (List.range n).map (fun k => (n - k, (none : Option Chars)))

/-- Capture group: records the consumed slice. -/
def capM (m : Matcher) : Matcher := fun s =>
  (m s).map fun p => (p.1, some (s.take p.1))

/-- `re.finditer` over a pattern: scan positions left to right, commit to
the engine's first match at each matching position, resume after each
non-empty match.  `bd` demands a `\b` word boundary before the match.
Returns `(start, stop, capture)` triples. -/
def scanAux (bd : Bool) (m : Matcher) :
    Nat → Chars → Option Char → Nat → List (Nat × Nat × Option Chars)
  | 0, _, _, _ => []
  | _ + 1, [], _, _ => []
  | fuel + 1, c :: rest, prev, i =>
    let allowed := !bd || (match prev with | none => true | some p => !isWordChar p)
    match (if allowed then (m (c :: rest)).head? else none) with
    | some r =>
      if r.1 = 0 then
        (i, i, r.2) :: scanAux bd m fuel rest (some c) (i + 1)
      else
        (i, i + r.1, r.2) ::
          scanAux bd m fuel ((c :: rest).drop r.1)
            (((c :: rest).take r.1).getLast?) (i + r.1)
    | none => scanAux bd m fuel rest (some c) (i + 1)

/-- Each `scanAux` step strictly shortens the text, so fuel `length + 1`
is never exhausted; the fuel only makes the recursion structural. -/
def scan (bd : Bool) (m : Matcher) (s : Chars) : List (Nat × Nat × Option Chars) :=
  scanAux bd m (s.length + 1) s none 0

/-! ## Safety Detector (`src/compiler/safety.py`, class `SafetyChecker`) -/

/-- `SafetyAlert` dataclass of `safety.py`. -/
structure SafetyAlert where
  category : String
  description : String
  severity : String
  source_id : String
  source_excerpt : String
deriving DecidableEq, Repr

/-- Character class `[^,.\n]` of the allergy / resus patterns. -/
def notSep (c : Char) : Bool := !(c = ',' || c = '.' || c = '\n')

/-- `ALLERGY_PATTERNS[0]`: `allerg(?:y|ies|ic)\s*(?:to)?:?\s*([^,.\n]+)`. -/
def patAllergy0 : Matcher :=
  chainM [strM "allerg", altM [strM "y", strM "ies", strM "ic"],
    starC isPySpace, optM (strM "to"), optM (strM ":"), starC isPySpace,
    capM (plusC notSep)]

/-- `ALLERGY_PATTERNS[1]`: `nkda`. -/
def patAllergy1 : Matcher := strM "nkda"

/-- `ALLERGY_PATTERNS[2]`: `allergies?:\s*([^,.\n]+)`. -/
def patAllergy2 : Matcher :=
  chainM [strM "allergie", optM (strM "s"), strM ":", starC isPySpace,
    capM (plusC notSep)]

/-- All matches of the three allergy patterns over the lowercased text, in
pattern order then position order, as `(start, stop, allergy_text)` where
`allergy_text` is `group(1)` when the pattern has a group and `group(0)`
otherwise (the `match.lastindex` dispatch in `_check_allergies`). -/
def allergyRawMatches (tl : Chars) : List (Nat × Nat × Chars) :=
  [patAllergy0, patAllergy1, patAllergy2].flatMap fun m =>
    (scan false m tl).map fun r => (r.1, r.2.1, r.2.2.getD (slice tl r.1 r.2.1))

/-- The `allergy_text` values extracted from a text (over its lowercasing). -/
def allergyMatchTexts (text : String) : List String :=
  (allergyRawMatches (pyLowerChars text.toList)).map fun r => String.mk r.2.2

/-- The no-allergy exclusion of `_check_allergies`. -/
def isExclusion (allergyText : Chars) : Bool :=
  isSubChars "nkda".toList allergyText || isSubChars "no known".toList allergyText

/-- `SafetyChecker._check_allergies`. -/
def checkAllergies (text : String) (sourceId : String) : List SafetyAlert :=
  let cs := text.toList
  let tl := pyLowerChars cs
  (allergyRawMatches tl).filterMap fun r =>
    if isExclusion r.2.2 then none
    else some {
      category := "allergy"
      description := "ALLERGY: " ++ pyTitleStr (String.mk (pyStripChars r.2.2))
      severity := "critical"
      source_id := sourceId
      source_excerpt := String.mk (pyStripChars (slice cs (r.1 - 20) (r.2.1 + 20))) }

/-- `RESUS_PATTERNS[0]`:
`(dnar|dnacpr|not for resus|for resuscitation|full escalation|ceiling of care|for cpr)`. -/
def patResus0 : Matcher :=
  capM (altM [strM "dnar", strM "dnacpr", strM "not for resus",
    strM "for resuscitation", strM "full escalation", strM "ceiling of care",
    strM "for cpr"])

/-- `RESUS_PATTERNS[1]`: `resus(?:citation)?\s*status:?\s*([^,.\n]+)`. -/
def patResus1 : Matcher :=
  chainM [strM "resus", optM (strM "citation"), starC isPySpace,
    strM "status", optM (strM ":"), starC isPySpace, capM (plusC notSep)]

/-- Matches of the two resus patterns with their `status` strings. -/
def resusRawMatches (tl : Chars) : List (Nat × Nat × Chars) :=
  [patResus0, patResus1].flatMap fun m =>
    (scan false m tl).map fun r => (r.1, r.2.1, r.2.2.getD (slice tl r.1 r.2.1))

/-- The matched `status` phrases of a text, in the order
`_check_resus_status` walks them: the whole match for the alternation
pattern, the captured tail for `resus status: …`. -/
def resusMatchStatuses (text : String) : List String :=
  (resusRawMatches (pyLowerChars text.toList)).map fun r => String.mk r.2.2

/-- `SafetyChecker._check_resus_status`. -/
def checkResusStatus (text : String) (sourceId : String) : List SafetyAlert :=
  let cs := text.toList
  let tl := pyLowerChars cs
  (resusRawMatches tl).map fun r =>
    let status := r.2.2
    { category := "resus_status"
      description := "RESUS STATUS: " ++ pyUpperStr (String.mk status)
      severity :=
        if isSubChars "dnar".toList status || isSubChars "not for".toList status
        then "critical" else "high"
      source_id := sourceId
      source_excerpt := String.mk (pyStripChars (slice cs (r.1 - 10) (r.2.1 + 10))) }

/-- Numeric capture `(\d+\.?\d*)` of the lab patterns. -/
def numM : Matcher :=
  capM (chainM [plusC Char.isDigit, optM (strM "."), starC Char.isDigit])

/-- Character class `[:\s]`. -/
def colonSpace (c : Char) : Bool := c = ':' || isPySpace c

/-- The ten `lab_patterns` of `_check_critical_labs`, each with its
word-boundary requirement (only `\bhb`), matcher and lab name. -/
def labMatchers : List (Bool × Matcher × String) :=
  [ (false, chainM [strM "potassium", plusC colonSpace, numM], "potassium"),
    (false, chainM [strM "k", optM (strM "+"), plusC colonSpace, numM], "potassium"),
    (false, chainM [strM "sodium", plusC colonSpace, numM], "sodium"),
    (false, chainM [strM "na", optM (strM "+"), plusC colonSpace, numM], "sodium"),
    (false, chainM [strM "glucose", plusC colonSpace, numM], "glucose"),
    (false, chainM [strM "h", optM (strM "ae"), strM "moglobin",
       plusC colonSpace, numM], "haemoglobin"),
    (true, chainM [strM "hb", plusC colonSpace, numM], "haemoglobin"),
    (false, chainM [strM "platelet", optM (strM "s"), plusC colonSpace, numM], "platelets"),
    (false, chainM [strM "inr", plusC colonSpace, numM], "inr"),
    (false, chainM [strM "creatinine", plusC colonSpace, numM], "creatinine") ]

/-- `CRITICAL_LABS` threshold table as `(low, high)` options.  The Python
table holds float literals; every literal is a short decimal represented
exactly here (built with `Rat.divInt`, which the kernel evaluates). -/
def criticalLabs (lab : String) : Option ℚ × Option ℚ :=
  if lab = "potassium" then (some (Rat.divInt 25 10), some (Rat.divInt 6 1))
  else if lab = "sodium" then (some (Rat.divInt 120 1), some (Rat.divInt 160 1))
  else if lab = "glucose" then (some (Rat.divInt 2 1), some (Rat.divInt 25 1))
  else if lab = "haemoglobin" then (some (Rat.divInt 70 1), none)
  else if lab = "platelets" then (some (Rat.divInt 50 1), none)
  else if lab = "inr" then (none, some (Rat.divInt 5 1))
  else if lab = "creatinine" then (none, some (Rat.divInt 400 1))
  else (none, none)

/-- Digit fold of a decimal digit run. -/
def digitsVal (cs : Chars) : Nat :=
  cs.foldl (fun a c => a * 10 + (c.toNat - 48)) 0

/-- `float` of a matched `\d+\.?\d*` literal, as the exact decimal it
denotes (float rounding never flips a comparison exercised here). -/
def parseNum (cs : Chars) : ℚ :=
  let intPart := cs.takeWhile Char.isDigit
  let rest := cs.dropWhile Char.isDigit
  let fracPart := match rest with
    | '.' :: fs => fs
    | _ => []
  Rat.divInt (digitsVal intPart * 10 ^ fracPart.length + digitsVal fracPart)
    (10 ^ fracPart.length)

/-- `SafetyChecker._check_critical_labs`.  The description renders the
matched numeric literal itself; Python formats the parsed float, which
coincides with the literal on the non-degenerate decimals exercised by
the claims (e.g. `7.2`). -/
def checkCriticalLabs (text : String) (sourceId : String) : List SafetyAlert :=
  let cs := text.toList
  let tl := pyLowerChars cs
  labMatchers.flatMap fun pat =>
    (scan pat.1 pat.2.1 tl).filterMap fun r =>
      let numStr := r.2.2.getD []
      let value := parseNum numStr
      let th := criticalLabs pat.2.2
      let res : Option String :=
        match th.1 with
        | some lo => if value < lo then some "↓↓" else
            (match th.2 with
             | some hi => if value > hi then some "↑↑" else none
             | none => none)
        | none =>
            (match th.2 with
             | some hi => if value > hi then some "↑↑" else none
             | none => none)
      match res with
      | none => none
      | some dir => some {
          category := "critical_result"
          description := "CRITICAL: " ++ pyTitleStr pat.2.2 ++ " " ++
            String.mk numStr ++ " " ++ dir
          severity := "critical"
          source_id := sourceId
          source_excerpt := String.mk (pyStripChars (slice cs (r.1 - 10) (r.2.1 + 10))) }

/-- `HIGH_RISK_MEDS`. -/
def highRiskMeds : List String :=
  ["warfarin", "heparin", "enoxaparin", "rivaroxaban", "apixaban", "dabigatran",
   "insulin", "metformin", "gliclazide", "glipizide",
   "morphine", "oxycodone", "fentanyl", "codeine", "tramadol",
   "digoxin", "amiodarone",
   "methotrexate", "chemotherapy",
   "lithium"]

/-- `SafetyChecker._check_high_risk_meds`: one alert per listed medication
present as a substring, excerpt around its first occurrence. -/
def checkHighRiskMeds (text : String) (sourceId : String) : List SafetyAlert :=
  let cs := text.toList
  let tl := pyLowerChars cs
  highRiskMeds.filterMap fun med =>
    match firstIdx tl med.toList with
    | none => none
    | some idx => some {
        category := "high_risk_med"
        description := "HIGH-RISK MED: " ++ pyTitleStr med
        severity := "high"
        source_id := sourceId
        source_excerpt :=
          String.mk (pyStripChars (slice cs (idx - 20) (idx + med.length + 20))) }

def infectionTerms : List String :=
  ["mrsa", "c.diff", "c difficile", "vre", "esbl", "cpe", "covid", "tb ",
   "tuberculosis", "isolation"]

/-- `SafetyChecker._check_infection_control`. -/
def checkInfectionControl (text : String) (sourceId : String) : List SafetyAlert :=
  let cs := text.toList
  let tl := pyLowerChars cs
  infectionTerms.filterMap fun term =>
    match firstIdx tl term.toList with
    | none => none
    | some idx => some {
        category := "infection_control"
        description := "INFECTION CONTROL: " ++ pyUpperStr term
        severity := "high"
        source_id := sourceId
        source_excerpt :=
          String.mk (pyStripChars (slice cs (idx - 15) (idx + term.length + 15))) }

def fallTerms : List String :=
  ["fall risk", "falls risk", "high falls", "bed rails", "1:1 supervision",
   "mobility aid"]

/-- `SafetyChecker._check_fall_risk`: at most one alert, first term wins. -/
def checkFallRisk (text : String) (sourceId : String) : List SafetyAlert :=
  let cs := text.toList
  let tl := pyLowerChars cs
  let hit := fallTerms.filterMap (fun term =>
    (firstIdx tl term.toList).map (fun idx => (term, idx)))
  match hit.head? with
  | none => []
  | some (term, idx) =>
    let excerpt := String.mk (pyStripChars (slice cs (idx - 15) (idx + term.length + 15)))
    [{ category := "fall_risk"
       description := "FALL RISK: " ++ excerpt
       severity := "medium"
       source_id := sourceId
       source_excerpt := excerpt }]

/-- `SafetyChecker.check_text`: the six families in source order. -/
def checkText (text : String) (sourceId : String) : List SafetyAlert :=
  checkAllergies text sourceId ++ checkResusStatus text sourceId ++
  checkCriticalLabs text sourceId ++ checkHighRiskMeds text sourceId ++
  checkInfectionControl text sourceId ++ checkFallRisk text sourceId

/-! ## Multi-Pass Extractor (`src/compiler/multipass.py`) -/

/-- `VerifiedExtraction` dataclass.  `confidence` is the Python float,
embedded as the exact rational every branch assigns. -/
structure VerifiedExtraction where
  category : String
  text : String
  confidence : ℚ
  source_id : String
  source_excerpt : String
  is_verified : Bool
  verification_note : String
deriving DecidableEq, Repr

/-- Exact product of two rationals, written with `Rat.divInt` so that the
kernel can evaluate it; `qmul_eq_mul` below identifies it with `*`. -/
def qmul (a b : ℚ) : ℚ := Rat.divInt (a.num * b.num) ((a.den : Int) * (b.den : Int))

theorem qmul_eq_mul (a b : ℚ) : qmul a b = a * b := by
  conv_rhs => rw [← Rat.num_divInt_den a, ← Rat.num_divInt_den b]
  rw [Rat.divInt_mul_divInt']
  rfl

/-- Distinct lowercased whitespace-separated words of a string
(Python `set(s.lower().split())`, as a duplicate-free list). -/
def wordSet (s : String) : List Chars := (splitWS (pyLowerChars s.toList)).dedup

/-- The lexical-overlap ratio of `_pass2_verify`:
`len(quote_words & doc_words) / max(len(quote_words), 1)`. -/
def overlapRatio (docContent quote : String) : ℚ :=
  Rat.divInt
    ((wordSet quote).filter (fun w => (wordSet docContent).contains w)).length
    (max (wordSet quote).length 1)

/-- Uncertainty-marker test of `_pass2_verify`:
`any(marker in text.lower() for marker in [...])`. -/
def hasUncertaintyMarker (text : String) : Bool :=
  ["?", "possibly", "likely", "unclear", "query"].any fun marker =>
    containsStr (pyLowerStr text) marker

/-- The overlap banding of `_pass2_verify`:
`(confidence, is_verified, note)` before the uncertainty penalty. -/
def baseVerify (docContent quote : String) : ℚ × Bool × String :=
  if overlapRatio docContent quote > Rat.divInt 7 10 then (Rat.divInt 9 10, true, "")
  else if overlapRatio docContent quote > Rat.divInt 4 10 then
    (Rat.divInt 7 10, true, "Partial quote match")
  else (Rat.divInt 4 10, false, "Quote not found in source")

/-- The verification step of `_pass2_verify` for one candidate: overlap
banding, then the uncertainty penalty `confidence *= 0.8` with note
override. -/
def verifyCandidate (docContent quote text : String) : ℚ × Bool × String :=
  if hasUncertaintyMarker text then
    (qmul (baseVerify docContent quote).1 (Rat.divInt 8 10),
     (baseVerify docContent quote).2.1, "Contains uncertainty marker")
  else baseVerify docContent quote

/-- Dynamic JSON values, for the dict `json.loads` hands to `_pass2_verify`. -/
inductive Json where
  | null : Json
  | bool : Bool → Json
  | num : ℚ → Json
  | str : String → Json
  | arr : List Json → Json
  | obj : List (String × Json) → Json
deriving Repr

/-- Python `dict.get(key, default)` on parsed JSON objects. -/
def pyDictGet (fields : List (String × Json)) (key : String) (dflt : Json) : Json :=
  match fields.find? (fun kv => kv.1 = key) with
  | some kv => kv.2
  | none => dflt

/-- `.get(...)` attribute access: only dicts have it; anything else raises
`AttributeError` in Python. -/
def pyGetMethod (j : Json) (key : String) (dflt : Json) : Except String Json :=
  match j with
  | .obj fs => .ok (pyDictGet fs key dflt)
  | _ => .error "AttributeError: get"

/-- Python `for _ in v`: lists iterate elements, strings their characters,
dicts their keys; numbers, booleans and `None` raise `TypeError`. -/
def pyIter : Json → Except String (List Json)
  | .arr xs => .ok xs
  | .str s => .ok (s.toList.map fun c => Json.str (String.mk [c]))
  | .obj fs => .ok (fs.map fun kv => Json.str kv.1)
  | _ => .error "TypeError: not iterable"

/-- A string method (`lower`, `split`) on a non-string raises
`AttributeError`. -/
def pyAsStr : Json → Except String String
  | .str s => .ok s
  | _ => .error "AttributeError: str method"

/-- Python `str(x)` for values interpolated into notes; only the string
case is exercised by the claims, the rest are plain renderings (Python
would show its own reprs, never raising). -/
def pyToStr : Json → String
  | .str s => s
  | .num q => toString q.num
  | .bool true => "True"
  | .bool false => "False"
  | .null => "None"
  | .arr _ => "[...]"
  | .obj _ => "[object]"

/-- Index of the first occurrence of `ch` in `cs`. -/
def firstCharIdx (cs : Chars) (ch : Char) : Option Nat := firstIdx cs [ch]

/-- Index of the last occurrence of `ch` in `cs`. -/
def lastCharIdx (cs : Chars) (ch : Char) : Option Nat :=
  match firstCharIdx cs.reverse ch with
  | none => none
  | some k => some (cs.length - 1 - k)

/-- The regex `re.search(r"\{[\s\S]*\}", response)` of `_pass1_extract`:
the span from the first `{` to the last `}`, when that span is
non-degenerate. -/
def findJson (response : String) : Option String :=
  let cs := response.toList
  match firstCharIdx cs lbrace, lastCharIdx cs rbrace with
  | some i, some j => if i < j then some (String.mk (slice cs i (j + 1))) else none
  | _, _ => none

/-- The fallback dict `_pass1_extract` returns on any parse failure. -/
def emptySections : Json :=
  Json.obj [("problems", Json.arr []), ("medications", Json.arr []),
    ("pending_tasks", Json.arr []), ("risks", Json.arr []),
    ("unclear_items", Json.arr [])]

/-- `MultiPassExtractor._pass1_extract`, with `json.loads` supplied as the
external stdlib collaborator `loads` (returning the parsed object fields,
or `none` on `JSONDecodeError`).  A document whose located block parses
must be a JSON object, since the block starts with `{` and ends with `}`. -/
def pass1Extract (loads : String → Option (List (String × Json)))
    (response : String) : Json :=
  match findJson response with
  | none => emptySections
  | some block =>
    match loads block with
    | some fields => Json.obj fields
    | none => emptySections

/-- Python `category.rstrip("s")`. -/
def rstripS (s : String) : String :=
  String.mk (s.toList.reverse.dropWhile (fun c => c = 's')).reverse

/-- Python `s[:n]`. -/
def pyTake (s : String) (n : Nat) : String := String.mk (s.toList.take n)

/-- `MultiPassExtractor._pass2_verify`.  Dynamic typing faults of the
Python loops (iterating a non-iterable, `.get` or a string method on the
wrong type) are uncaught exceptions, embedded as `Except.error`. -/
def pass2Verify (docContent docId : String) (raw : Json) :
    Except String (List VerifiedExtraction) := do
  let mut flat : List (String × Json × Json) := []
  for cat in ["problems", "medications", "pending_tasks", "risks"] do
    let v ← pyGetMethod raw cat (Json.arr [])
    let items ← pyIter v
    for item in items do
      let tj ← pyGetMethod item "text" (Json.str "")
      let qj ← pyGetMethod item "quote" (Json.str "")
      flat := flat ++ [(rstripS cat, tj, qj)]
  if flat.isEmpty then
    return []
  let mut verified : List VerifiedExtraction := []
  for ext in flat do
    let quote ← pyAsStr ext.2.2
    let text ← pyAsStr ext.2.1
    let r := verifyCandidate docContent quote text
    verified := verified ++ [{
      category := ext.1
      text := text
      confidence := r.1
      source_id := docId
      source_excerpt := if quote ≠ "" then pyTake quote 200 else pyTake text 200
      is_verified := r.2.1
      verification_note := r.2.2 }]
  let u ← pyGetMethod raw "unclear_items" (Json.arr [])
  let uitems ← pyIter u
  for item in uitems do
    let tj ← pyGetMethod item "text" (Json.str "")
    let rj ← pyGetMethod item "reason" (Json.str "unknown")
    verified := verified ++ [{
      category := "unclear"
      text := pyToStr tj
      confidence := Rat.divInt 3 10
      source_id := docId
      source_excerpt := ""
      is_verified := true
      verification_note := "Flagged as unclear: " ++ pyToStr rj }]
  return verified

/-! ## Data model (`src/models.py`) -/

/-- `SourceType` enum with its `.value` strings. -/
inductive SourceType where
  | typed_note | dictation | handwritten | clinic_letter | discharge_summary
  | lab_result | radiology_report | medical_image | other
deriving DecidableEq, Repr

def SourceType.value : SourceType → String
  | .typed_note => "typed_note"
  | .dictation => "dictation"
  | .handwritten => "handwritten"
  | .clinic_letter => "clinic_letter"
  | .discharge_summary => "discharge_summary"
  | .lab_result => "lab_result"
  | .radiology_report => "radiology_report"
  | .medical_image => "medical_image"
  | .other => "other"

/-- `InputDocument`.  `timestamp` is an opaque instant (`Option Nat`);
raw bytes and capture confidence play no role in the claims' code paths
but are carried for faithfulness. -/
structure InputDocument where
  id : String
  source_type : SourceType
  content : String
  timestamp : Option Nat := none
  author : Option String := none
  filename : Option String := none
  confidence : ℚ := 1
deriving DecidableEq, Repr

/-- `ExtractionResult` of `multipass.py` (minus `raw_content`, which only
echoes the input). -/
structure ExtractionResult where
  document_id : String
  document_type : String
  extractions : List VerifiedExtraction
  safety_alerts : List SafetyAlert
  missing_mandatory : List String
deriving DecidableEq, Repr

/-- `MultiPassExtractor._pass3_safety_check`: the `missing_mandatory`
list (the function's alert component is always empty). -/
def pass3MissingMandatory (doc : InputDocument) : List String :=
  let cl := pyLowerStr doc.content
  let allergyDocumented :=
    ["allerg", "nkda", "no known drug"].any fun t => containsStr cl t
  let resusDocumented :=
    ["dnar", "dnacpr", "resus", "escalation", "ceiling", "for cpr"].any fun t =>
      containsStr cl t
  (if allergyDocumented then [] else ["Allergy status not documented"]) ++
    (if ¬resusDocumented ∧ doc.source_type.value ∈ ["typed_note", "handwritten"]
     then ["Resuscitation status not documented"] else [])

/-- `MultiPassExtractor.extract`: rule-based safety scan, pass 1 on the
generation collaborator's `response`, pass 2 verification (whose dynamic
faults propagate), pass 3 completeness check. -/
def multipassExtract (loads : String → Option (List (String × Json)))
    (doc : InputDocument) (response : String) : Except String ExtractionResult := do
  let alerts := checkText doc.content doc.id
  let raw := pass1Extract loads response
  let exts ← pass2Verify doc.content doc.id raw
  return { document_id := doc.id
           document_type := doc.source_type.value
           extractions := exts
           safety_alerts := alerts
           missing_mandatory := pass3MissingMandatory doc }

/-! ## Compiler (`src/compiler/compiler.py` with the conflict-resolution
and extraction-parsing collaborators of `src/compiler/medgemma.py`) -/

inductive Mode where
  | handover | discharge | gp_summary | general
deriving DecidableEq, Repr

/-- One parsed line of `MedGemmaProcessor._parse_extraction_response`
(its per-item `source_id` is overwritten during merging, so only the
text matters downstream). -/
structure RawItem where
  text : String
deriving DecidableEq, Repr

/-- The section dict `extract_clinical_info` returns for one document. -/
structure Extraction where
  active_problems : List RawItem := []
  historical_problems : List RawItem := []
  medications : List RawItem := []
  investigations : List RawItem := []
  plans : List RawItem := []
  pending : List RawItem := []
  risks : List RawItem := []
  unclear : List RawItem := []
deriving Repr

/-- A merged problem/event entry (`_merge_extractions`): text, source
document id, document timestamp. -/
structure MProb where
  text : String
  source_id : String
  timestamp : Option Nat
deriving DecidableEq, Repr

/-- A merged pending/risk/unclear entry. -/
structure MItem where
  text : String
  source_id : String
deriving DecidableEq, Repr

structure Merged where
  active_problems : List MProb
  pending : List MItem
  risks : List MItem
  unclear : List MItem
  events : List MProb
deriving DecidableEq, Repr

/-- `ClinicalCompiler._merge_extractions`, with the per-document
extraction dicts produced by the generation collaborator `ef`. -/
def mergeExtractions (docs : List InputDocument) (ef : InputDocument → Extraction) :
    Merged where
  active_problems := docs.flatMap fun d =>
    (ef d).active_problems.map fun r => ⟨r.text, d.id, d.timestamp⟩
  pending := docs.flatMap fun d => (ef d).pending.map fun r => ⟨r.text, d.id⟩
  risks := docs.flatMap fun d => (ef d).risks.map fun r => ⟨r.text, d.id⟩
  unclear := docs.flatMap fun d => (ef d).unclear.map fun r => ⟨r.text, d.id⟩
  events := docs.flatMap fun d =>
    (ef d).plans.map fun r => ⟨r.text, d.id, d.timestamp⟩

/-- The conflict test of `MedGemmaProcessor.resolve_conflicts`: the item
is flagged iff the literal token `CONFLICT:` occurs in the response and
the item's exact text occurs in the response. -/
def isConflictItem (response : String) (it : MProb) : Bool :=
  containsStr response "CONFLICT:" && containsStr response it.text

/-- `MedGemmaProcessor.resolve_conflicts` with the generation response
supplied; returns `(resolved, conflicts)`. -/
def resolveConflicts (items : List MProb) (response : String) :
    List MProb × List MProb :=
  if items.length ≤ 1 then (items, [])
  else (items.filter (fun it => !isConflictItem response it),
        items.filter (isConflictItem response))

/-- Dedup key of `_resolve_all_conflicts`: `item["text"].lower().strip()`. -/
def dedupKey (it : MItem) : String := pyStripStr (pyLowerStr it.text)

/-- The seen-set fold deduplicating pending items. -/
def dedupAux : List MItem → List String → List MItem
  | [], _ => []
  | x :: xs, seen =>
    if seen.contains (dedupKey x) then dedupAux xs seen
    else x :: dedupAux xs (dedupKey x :: seen)

def dedupPending (items : List MItem) : List MItem := dedupAux items []

/-- `ClinicalCompiler._resolve_all_conflicts`: conflict resolution on the
active problems (only when more than one exists), then pending dedup. -/
def resolveAllConflicts (m : Merged) (response : String) : Merged × List MProb :=
  if 1 < m.active_problems.length then
    ({ m with
        active_problems := (resolveConflicts m.active_problems response).1
        pending := dedupPending m.pending },
     (resolveConflicts m.active_problems response).2)
  else ({ m with pending := dedupPending m.pending }, [])

def highUrgencyKeywords : List String :=
  ["urgent", "immediately", "asap", "stat", "emergency", "critical"]

def mediumUrgencyKeywords : List String :=
  ["soon", "today", "tomorrow", "priority", "important"]

/-- `get_urgency_score` inside `_sort_by_urgency`. -/
def urgencyScore (it : MItem) : Nat :=
  if highUrgencyKeywords.any (fun k => containsStr (pyLowerStr it.text) k) then 0
  else if mediumUrgencyKeywords.any (fun k => containsStr (pyLowerStr it.text) k) then 1
  else 2

/-- `sorted(items, key=get_urgency_score)`: Python's sort is stable, and
a stable sort by a key ranging over `{0, 1, 2}` returns exactly the
score-0 items in order, then the score-1 items, then the score-2 items;
the sort is embedded in that form. -/
def sortByUrgency (items : List MItem) : List MItem :=
  items.filter (fun i => urgencyScore i == 0) ++
  items.filter (fun i => urgencyScore i == 1) ++
  items.filter (fun i => urgencyScore i == 2)

/-- `ClinicalCompiler._prioritize_for_mode`. -/
def prioritizeForMode (m : Merged) (mode : Mode) : Merged :=
  match mode with
  | .handover => { m with pending := sortByUrgency m.pending }
  | _ => m

/-- `ExtractedItem` of `models.py` (coarse three-level confidence). -/
structure ExtractedItem where
  text : String
  category : String
  source_id : String
  source_excerpt : String
  confidence : String := "medium"
  is_current : Bool := true
  timestamp : Option Nat := none
deriving DecidableEq, Repr

structure PendingItem where
  description : String
  source_id : String
  source_excerpt : String
  urgency : String := "routine"
deriving DecidableEq, Repr

structure RiskFlag where
  description : String
  source_id : String
  source_excerpt : String
  severity : String := "medium"
deriving DecidableEq, Repr

structure UnclearItem where
  description : String
  reason : String
  source_ids : List String := []
  source_excerpts : List String := []
deriving DecidableEq, Repr

/-- `ClinicalSnapshot` (minus `generated_at`, a wall-clock instant). -/
structure ClinicalSnapshot where
  input_document_count : Nat
  mode : Mode
  active_problems : List ExtractedItem
  current_status : String
  key_events : List ExtractedItem
  pending_tasks : List PendingItem
  risks : List RiskFlag
  unclear_items : List UnclearItem
  sources : List (String × String)
deriving DecidableEq, Repr

/-- `ClinicalCompiler._assess_confidence`. -/
def assessConfidence (text : String) : String :=
  let t := pyLowerStr text
  if ["?", "possibly", "maybe", "unclear", "unsure", "query"].any
      (fun marker => containsStr t marker)
  then "low" else "high"

/-- `ClinicalCompiler._detect_urgency`. -/
def detectUrgency (text : String) : String :=
  if ["urgent", "immediately", "asap", "stat", "emergency"].any
      (fun k => containsStr (pyLowerStr text) k) then "urgent"
  else if ["soon", "today", "tomorrow", "priority"].any
      (fun k => containsStr (pyLowerStr text) k) then "soon"
  else "routine"

/-- `ClinicalCompiler._detect_severity`. -/
def detectSeverity (text : String) : String :=
  let t := pyLowerStr text
  if ["critical", "severe", "life-threatening", "emergency", "urgent"].any
      (fun k => containsStr t k) then "high"
  else if ["significant", "important", "warning", "caution", "monitor"].any
      (fun k => containsStr t k) then "medium"
  else "low"

/-- `{doc.source_type.value}: {doc.filename or 'unnamed'}` — Python `or`
takes the fallback on `None` and on the empty string. -/
def sourceLabel (doc : InputDocument) : String :=
  doc.source_type.value ++ ": " ++
    (match doc.filename with
     | some f => if f = "" then "unnamed" else f
     | none => "unnamed")

/-- `ClinicalCompiler._build_snapshot`. -/
def buildSnapshot (docs : List InputDocument) (prioritized : Merged)
    (conflicts : List MProb) (currentStatus : String) (mode : Mode) :
    ClinicalSnapshot where
  input_document_count := docs.length
  mode := mode
  active_problems := prioritized.active_problems.map fun p =>
    { text := p.text, category := "problem", source_id := p.source_id
      source_excerpt := p.text, confidence := assessConfidence p.text
      is_current := true, timestamp := p.timestamp }
  current_status := currentStatus
  key_events := prioritized.events.map fun e =>
    { text := e.text, category := "event", source_id := e.source_id
      source_excerpt := e.text, timestamp := e.timestamp }
  pending_tasks := prioritized.pending.map fun p =>
    { description := p.text, source_id := p.source_id, source_excerpt := p.text
      urgency := detectUrgency p.text }
  risks := prioritized.risks.map fun r =>
    { description := r.text, source_id := r.source_id, source_excerpt := r.text
      severity := detectSeverity r.text }
  unclear_items :=
    (prioritized.unclear.map fun u =>
      { description := u.text, reason := "ambiguous", source_ids := [u.source_id]
        source_excerpts := [u.text] }) ++
    (conflicts.map fun c =>
      { description := "Conflicting information: " ++ c.text
        reason := "conflicting", source_ids := [c.source_id]
        source_excerpts := [c.text] })
  sources := docs.map fun d => (d.id, sourceLabel d)

/-- `ClinicalCompiler.compile`, with the generation collaborator calls
supplied as arguments: `ef` for per-document extraction parsing,
`conflictResponse` for the conflict-resolution call, `status` for status
synthesis.  The empty-input `ValueError` is the `Except.error` case. -/
def compile (docs : List InputDocument) (mode : Mode)
    (ef : InputDocument → Extraction) (conflictResponse : String)
    (status : String) : Except String ClinicalSnapshot :=
  if docs.isEmpty then .error "No documents provided to compile"
  else
    .ok (buildSnapshot docs
      (prioritizeForMode (resolveAllConflicts (mergeExtractions docs ef) conflictResponse).1 mode)
      (resolveAllConflicts (mergeExtractions docs ef) conflictResponse).2 status mode)

/-! ## Claim-side definitions

These two definitions follow the wording of claims rather than the
source; each is compared with the source-derived definition above. -/

/-- The phrases the resus-status claim designates as resuscitation
limitations. -/
def claimResusLimitationPhrases : List String :=
  ["dnar", "dnacpr", "not for resus", "ceiling of care"]

/-- The overlap formula as the verification claim words it:
`|words(quote) ∩ words(document)| / |words(quote)|`. -/
def claimOverlap (docContent quote : String) : ℚ :=
  ((wordSet quote).filter (fun w => (wordSet docContent).contains w)).length /
    ((wordSet quote).length : ℚ)

/-- Modelled from the deduplication claim's words: keep an item iff no
earlier item shares its trimmed, lowercased text. -/
def specDedup : List MItem → List MItem
  | [] => []
  | x :: xs => x :: specDedup (xs.filter (fun y => dedupKey y ≠ dedupKey x))
termination_by l => l.length
decreasing_by
  simp only [List.length_cons]
  exact Nat.lt_succ_of_le (List.length_filter_le _ _)

/-! ## Helper lemmas -/

theorem overlapRatio_eq_claimOverlap (docContent quote : String) :
    overlapRatio docContent quote = claimOverlap docContent quote := by
  unfold overlapRatio claimOverlap
  rcases Nat.eq_zero_or_pos (wordSet quote).length with h | h
  · rw [List.length_eq_zero] at h
    simp [h, Rat.divInt_eq_div]
  · have h1 : (1 : ℤ) ≤ ((wordSet quote).length : ℤ) := by exact_mod_cast h
    rw [max_eq_left h1, Rat.divInt_eq_div]
    push_cast
    rfl

theorem urgencyScore_cases (i : MItem) :
    urgencyScore i = 0 ∨ urgencyScore i = 1 ∨ urgencyScore i = 2 := by
  unfold urgencyScore
  split
  · exact Or.inl rfl
  split
  · exact Or.inr (Or.inl rfl)
  · exact Or.inr (Or.inr rfl)

theorem count_filter_of_neg {α} [BEq α] [LawfulBEq α] {p : α → Bool} {a : α}
    (h : p a = false) (l : List α) : List.count a (l.filter p) = 0 := by
  rw [List.count_eq_zero]
  intro hm
  have hp := (List.mem_filter.mp hm).2
  rw [h] at hp
  exact Bool.false_ne_true hp

theorem sortByUrgency_perm (l : List MItem) : (sortByUrgency l).Perm l := by
  rw [List.perm_iff_count]
  intro a
  unfold sortByUrgency
  rcases urgencyScore_cases a with h | h | h <;>
    simp [List.count_append, List.count_filter, count_filter_of_neg, h]

theorem mem_filter_score {l : List MItem} {s : Nat} {a : MItem}
    (h : a ∈ l.filter (fun i => urgencyScore i == s)) : urgencyScore a = s := by
  simpa using (List.mem_filter.mp h).2

theorem sortByUrgency_sorted (l : List MItem) :
    (sortByUrgency l).Pairwise (fun a b => urgencyScore a ≤ urgencyScore b) := by
  unfold sortByUrgency
  rw [List.pairwise_append, List.pairwise_append]
  refine ⟨⟨List.pairwise_of_forall_mem_list ?_, List.pairwise_of_forall_mem_list ?_, ?_⟩,
    List.pairwise_of_forall_mem_list ?_, ?_⟩
  · intro a ha b hb
    rw [mem_filter_score ha, mem_filter_score hb]
  · intro a ha b hb
    rw [mem_filter_score ha, mem_filter_score hb]
  · intro a ha b hb
    rw [mem_filter_score ha, mem_filter_score hb]
    omega
  · intro a ha b hb
    rw [mem_filter_score ha, mem_filter_score hb]
  · intro a ha b hb
    rcases List.mem_append.mp ha with ha | ha
    · rw [mem_filter_score ha, mem_filter_score hb]
      omega
    · rw [mem_filter_score ha, mem_filter_score hb]
      omega

theorem sortByUrgency_stable (l : List MItem) (s : Nat) :
    (sortByUrgency l).filter (fun i => urgencyScore i == s) =
      l.filter (fun i => urgencyScore i == s) := by
  unfold sortByUrgency
  rw [List.filter_append, List.filter_append, List.filter_filter,
    List.filter_filter, List.filter_filter]
  have herase : ∀ t : Nat, t ≠ s →
      List.filter (fun a => (urgencyScore a == s) && (urgencyScore a == t)) l = [] := by
    intro t ht
    rw [List.filter_eq_nil_iff]
    intro a _
    by_cases hsc : urgencyScore a = t
    · simp [hsc, ht]
    · simp [hsc]
  have hsame : ∀ t : Nat, t = s →
      List.filter (fun a => (urgencyScore a == s) && (urgencyScore a == t)) l =
        List.filter (fun a => urgencyScore a == s) l := by
    intro t ht
    subst ht
    apply List.filter_congr
    intro a _
    exact Bool.and_self _
  by_cases h0 : s = 0
  · subst h0
    rw [hsame 0 rfl, herase 1 (by omega), herase 2 (by omega)]
    simp
  by_cases h1 : s = 1
  · subst h1
    rw [hsame 1 rfl, herase 0 (by omega), herase 2 (by omega)]
    simp
  by_cases h2 : s = 2
  · subst h2
    rw [hsame 2 rfl, herase 0 (by omega), herase 1 (by omega)]
    simp
  · rw [herase 0 (by omega), herase 1 (by omega), herase 2 (by omega)]
    have hnil : List.filter (fun i => urgencyScore i == s) l = [] := by
      rw [List.filter_eq_nil_iff]
      intro a _
      rcases urgencyScore_cases a with h | h | h <;> simp [h] <;> omega
    rw [hnil]
    rfl

theorem dedupAux_eq_specDedup (l : List MItem) (seen : List String) :
    dedupAux l seen = specDedup (l.filter (fun y => !seen.contains (dedupKey y))) := by
  induction l generalizing seen with
  | nil => simp [dedupAux, specDedup]
  | cons x xs ih =>
    by_cases hc : seen.contains (dedupKey x)
    · rw [dedupAux, if_pos hc]
      rw [List.filter_cons_of_neg (by simpa using hc)]
      exact ih seen
    · rw [dedupAux, if_neg hc]
      rw [List.filter_cons_of_pos (by simpa using hc)]
      rw [specDedup, List.filter_filter]
      rw [ih (dedupKey x :: seen)]
      have hf : List.filter (fun y => !(dedupKey x :: seen).contains (dedupKey y)) xs =
          List.filter (fun a => decide (dedupKey a ≠ dedupKey x) &&
            !seen.contains (dedupKey a)) xs := by
        apply List.filter_congr
        intro y _
        by_cases h : dedupKey y = dedupKey x <;> simp [h, List.contains_cons]
      rw [hf]

theorem prioritize_active_problems (m : Merged) (mode : Mode) :
    (prioritizeForMode m mode).active_problems = m.active_problems := by
  cases mode <;> rfl

theorem mem_dedupAux {x : MItem} : ∀ {l : List MItem} {seen : List String},
    x ∈ dedupAux l seen → x ∈ l := by
  intro l
  induction l with
  | nil => intro seen h; exact absurd h (by simp [dedupAux])
  | cons y ys ih =>
    intro seen h
    unfold dedupAux at h
    split at h
    · exact List.mem_cons_of_mem _ (ih h)
    · rcases List.mem_cons.mp h with rfl | h
      · exact List.mem_cons_self _ _
      · exact List.mem_cons_of_mem _ (ih h)

theorem mem_prioritized_pending {m : Merged} {mode : Mode} {x : MItem}
    (h : x ∈ (prioritizeForMode m mode).pending) : x ∈ m.pending := by
  cases mode <;> simp only [prioritizeForMode] at h <;> try exact h
  exact (sortByUrgency_perm m.pending).mem_iff.mp h

/-! ## Claims -/

/-- C1: on the document content "Potassium: 7.2, NKDA, DNAR in notes",
`SafetyChecker.check_text` returns exactly one `critical_result` alert
(potassium 7.2, above the high threshold 6.0, annotated with the
"above" marker), exactly one `resus_status` alert of severity
`critical`, and zero allergy alerts. -/
theorem claim_C1 :
    ((checkText "Potassium: 7.2, NKDA, DNAR in notes" "doc1").filter
        (fun a => a.category = "critical_result")).map
        (fun a => (a.description, a.severity)) =
      [("CRITICAL: Potassium 7.2 ↑↑", "critical")]
    ∧ parseNum "7.2".toList > Rat.divInt 6 1
    ∧ ((checkText "Potassium: 7.2, NKDA, DNAR in notes" "doc1").filter
        (fun a => a.category = "resus_status")).map (fun a => a.severity) = ["critical"]
    ∧ (checkText "Potassium: 7.2, NKDA, DNAR in notes" "doc1").filter
        (fun a => a.category = "allergy") = [] := by
  decide

/-- C2 counterexample: "dnacpr" is one of the claim's resuscitation
limitation phrases, yet the alert produced for the text "dnacpr" has
severity `high`, not `critical` (the source tests `"dnar" in status or
"not for" in status`, and neither substring occurs in "dnacpr"). -/
theorem claim_C2_counterexample :
    (checkResusStatus "dnacpr" "d").map SafetyAlert.severity = ["high"]
    ∧ "dnacpr" ∈ claimResusLimitationPhrases := by
  decide

/-- C2 amended: for every input text and source id, the resus-status
alerts correspond one-to-one, in match order, to the matched status
phrases of the two resus patterns (the whole match for the alternation
pattern, the captured tail of `resus status: …` for the second), and an
alert's severity is `critical` exactly when its matched phrase contains
"dnar" or "not for" as a substring, `high` otherwise — so DNAR and
"not for resus" are critical while DNACPR, "for resuscitation",
"full escalation", "ceiling of care" and "for cpr" are high, and a
captured `resus status:` tail such as "not for ward cpr" is critical
while "full active treatment" is high. -/
theorem claim_C2_amended :
    (∀ (text sourceId : String),
      (checkResusStatus text sourceId).map SafetyAlert.severity =
        (resusMatchStatuses text).map (fun st =>
          if containsStr st "dnar" = true ∨ containsStr st "not for" = true
          then "critical" else "high")
      ∧ (checkResusStatus text sourceId).map SafetyAlert.description =
        (resusMatchStatuses text).map (fun st => "RESUS STATUS: " ++ pyUpperStr st))
    ∧ (checkResusStatus "dnar" "d").map SafetyAlert.severity = ["critical"]
    ∧ (checkResusStatus "not for resus" "d").map SafetyAlert.severity = ["critical"]
    ∧ (checkResusStatus "dnacpr" "d").map SafetyAlert.severity = ["high"]
    ∧ (checkResusStatus "for resuscitation" "d").map SafetyAlert.severity = ["high"]
    ∧ (checkResusStatus "full escalation" "d").map SafetyAlert.severity = ["high"]
    ∧ (checkResusStatus "ceiling of care" "d").map SafetyAlert.severity = ["high"]
    ∧ (checkResusStatus "for cpr" "d").map SafetyAlert.severity = ["high"]
    ∧ (checkResusStatus "resus status: not for ward cpr" "d").map
        (fun a => (a.description, a.severity)) =
        [("RESUS STATUS: NOT FOR WARD CPR", "critical")]
    ∧ (checkResusStatus "resus status: full active treatment" "d").map
        (fun a => (a.description, a.severity)) =
        [("RESUS STATUS: FULL ACTIVE TREATMENT", "high")] := by
  refine ⟨?_, by decide, by decide, by decide, by decide, by decide, by decide,
    by decide, by decide, by decide⟩
  intro text sourceId
  constructor
  · simp only [checkResusStatus, resusMatchStatuses, List.map_map]
    apply List.map_congr_left
    intro r _
    simp only [Function.comp]
    have e1 : containsStr (String.mk r.2.2) "dnar" = isSubChars "dnar".toList r.2.2 := rfl
    have e2 : containsStr (String.mk r.2.2) "not for" =
        isSubChars "not for".toList r.2.2 := rfl
    rw [e1, e2]
    cases hA : isSubChars "dnar".toList r.2.2 <;>
      cases hB : isSubChars "not for".toList r.2.2 <;> simp [hA, hB]
  · simp only [checkResusStatus, resusMatchStatuses, List.map_map]
    apply List.map_congr_left
    intro r _
    simp [Function.comp, pyUpperStr]

/-- C2 witness: the universal severity correspondence of the amended
claim instantiated at the text "resus status: dnar", where both resus
patterns match. -/
theorem claim_C2_witness :
    (checkResusStatus "resus status: dnar" "w").map SafetyAlert.severity =
      (resusMatchStatuses "resus status: dnar").map (fun st =>
        if containsStr st "dnar" = true ∨ containsStr st "not for" = true
        then "critical" else "high") :=
  (claim_C2_amended.1 "resus status: dnar" "w").1

/-- C3: the text "NKDA" yields zero allergy alerts, and on every text in
which each allergy-pattern match extracts an exclusion phrase
(containing "nkda" or "no known"), `_check_allergies` emits no alert. -/
theorem claim_C3 :
    ((checkText "NKDA" "d").filter (fun a => a.category = "allergy") = [])
    ∧ ∀ (text sourceId : String),
        (∀ mt ∈ allergyMatchTexts text, isExclusion mt.toList = true) →
        checkAllergies text sourceId = [] := by
  refine ⟨by decide, ?_⟩
  intro text sourceId h
  simp only [allergyMatchTexts, List.mem_map] at h
  simp only [checkAllergies, List.filterMap_eq_nil_iff]
  intro r hr
  have hx : isExclusion r.2.2 = true := h (String.mk r.2.2) ⟨r, hr, rfl⟩
  simp [hx]

/-- C3 witness: the suppression part applied to the text
"Allergies: NKDA", where the allergy keyword is present and all three
allergy patterns match exclusion text. -/
theorem claim_C3_witness : checkAllergies "Allergies: NKDA" "d" = [] :=
  claim_C3.2 "Allergies: NKDA" "d" (by decide)

/-- C4 counterexample: at overlap 1/2 (inside the claim's middle band)
the produced note is "Partial quote match", not the claim's
"partial quote match"; likewise the other notes are capitalized. -/
theorem claim_C4_counterexample :
    verifyCandidate "alpha beta" "alpha beta gamma delta" "check task" =
      ((7/10 : ℚ), true, "Partial quote match")
    ∧ "Partial quote match" ≠ "partial quote match"
    ∧ claimOverlap "alpha beta" "alpha beta gamma delta" = (5/10 : ℚ) := by
  have e7 : (7/10 : ℚ) = Rat.divInt 7 10 := by norm_num [Rat.divInt_eq_div]
  have e5 : (5/10 : ℚ) = Rat.divInt 5 10 := by norm_num [Rat.divInt_eq_div]
  exact ⟨by rw [e7]; decide, by decide,
    by rw [← overlapRatio_eq_claimOverlap, e5]; decide⟩

/-- C4 amended: the code's overlap ratio equals the claim's formula;
overlap > 0.7 gives confidence 0.9, verified; 0.4 < overlap ≤ 0.7 gives
0.7, verified, note "Partial quote match"; overlap ≤ 0.4 gives 0.4, not
verified, note "Quote not found in source"; an uncertainty marker in the
claim text multiplies the confidence by 0.8 and overrides the note with
"Contains uncertainty marker" (the three notes are capitalized, unlike
the claim's quoting); overlaps 0.8, 0.5, 0.2 yield 0.9, 0.7, 0.4. -/
theorem claim_C4_amended :
    (∀ docContent quote : String,
      overlapRatio docContent quote = claimOverlap docContent quote)
    ∧ (∀ doc quote text : String,
        (overlapRatio doc quote > Rat.divInt 7 10 →
          verifyCandidate doc quote text =
            (if hasUncertaintyMarker text then (9/10 : ℚ) * (8/10 : ℚ) else (9/10 : ℚ),
             true,
             if hasUncertaintyMarker text then "Contains uncertainty marker" else ""))
        ∧ (overlapRatio doc quote ≤ Rat.divInt 7 10 →
            overlapRatio doc quote > Rat.divInt 4 10 →
            verifyCandidate doc quote text =
              (if hasUncertaintyMarker text then (7/10 : ℚ) * (8/10 : ℚ) else (7/10 : ℚ),
               true,
               if hasUncertaintyMarker text then "Contains uncertainty marker"
               else "Partial quote match"))
        ∧ (overlapRatio doc quote ≤ Rat.divInt 4 10 →
            verifyCandidate doc quote text =
              (if hasUncertaintyMarker text then (4/10 : ℚ) * (8/10 : ℚ) else (4/10 : ℚ),
               false,
               if hasUncertaintyMarker text then "Contains uncertainty marker"
               else "Quote not found in source")))
    ∧ claimOverlap "a b c d e" "a b c d x" = (8/10 : ℚ)
    ∧ verifyCandidate "a b c d e" "a b c d x" "task" = ((9/10 : ℚ), true, "")
    ∧ claimOverlap "alpha beta" "alpha beta gamma delta" = (5/10 : ℚ)
    ∧ verifyCandidate "alpha beta" "alpha beta gamma delta" "task" =
        ((7/10 : ℚ), true, "Partial quote match")
    ∧ claimOverlap "v" "v w x y z" = (2/10 : ℚ)
    ∧ verifyCandidate "v" "v w x y z" "task" =
        ((4/10 : ℚ), false, "Quote not found in source") := by
  have e9 : (9/10 : ℚ) = Rat.divInt 9 10 := by norm_num [Rat.divInt_eq_div]
  have e8 : (8/10 : ℚ) = Rat.divInt 8 10 := by norm_num [Rat.divInt_eq_div]
  have e7 : (7/10 : ℚ) = Rat.divInt 7 10 := by norm_num [Rat.divInt_eq_div]
  have e5 : (5/10 : ℚ) = Rat.divInt 5 10 := by norm_num [Rat.divInt_eq_div]
  have e4 : (4/10 : ℚ) = Rat.divInt 4 10 := by norm_num [Rat.divInt_eq_div]
  have e2 : (2/10 : ℚ) = Rat.divInt 2 10 := by norm_num [Rat.divInt_eq_div]
  refine ⟨overlapRatio_eq_claimOverlap, ?_, ?_, ?_, ?_, ?_, ?_, ?_⟩
  · intro doc quote text
    refine ⟨?_, ?_, ?_⟩
    · intro h1
      unfold verifyCandidate baseVerify
      rw [if_pos h1]
      cases hU : hasUncertaintyMarker text <;>
        simp only [hU, if_true, if_false, Bool.false_eq_true]
      · exact e9 ▸ rfl
      · rw [qmul_eq_mul, e9, e8]
    · intro h1 h2
      unfold verifyCandidate baseVerify
      rw [if_neg (not_lt.mpr h1), if_pos h2]
      cases hU : hasUncertaintyMarker text <;>
        simp only [hU, if_true, if_false, Bool.false_eq_true]
      · exact e7 ▸ rfl
      · rw [qmul_eq_mul, e7, e8]
    · intro h1
      have h0 : ¬ overlapRatio doc quote > Rat.divInt 7 10 := by
        have : Rat.divInt 4 10 ≤ Rat.divInt 7 10 := by decide
        exact not_lt.mpr (le_trans h1 this)
      unfold verifyCandidate baseVerify
      rw [if_neg h0, if_neg (not_lt.mpr h1)]
      cases hU : hasUncertaintyMarker text <;>
        simp only [hU, if_true, if_false, Bool.false_eq_true]
      · exact e4 ▸ rfl
      · rw [qmul_eq_mul, e4, e8]
  · rw [← overlapRatio_eq_claimOverlap, e8]; decide
  · rw [e9]; decide
  · rw [← overlapRatio_eq_claimOverlap, e5]; decide
  · rw [e7]; decide
  · rw [← overlapRatio_eq_claimOverlap, e2]; decide
  · rw [e4]; decide

/-- C4 witness: the middle band of the amended claim applied at the
concrete overlap 1/2. -/
theorem claim_C4_witness :
    verifyCandidate "alpha beta" "alpha beta gamma delta" "chase scan" =
      (if hasUncertaintyMarker "chase scan" then (7/10 : ℚ) * (8/10 : ℚ)
       else (7/10 : ℚ),
       true,
       if hasUncertaintyMarker "chase scan" then "Contains uncertainty marker"
       else "Partial quote match") :=
  (claim_C4_amended.2.1 "alpha beta" "alpha beta gamma delta" "chase scan").2.1
    (by decide) (by decide)

/-- C5: once more than one active problem exists, an item is classified
as a conflict iff the token "CONFLICT:" occurs in the generation
response and the item's exact text occurs in the response, and is kept
otherwise; every conflict is absent from the snapshot's active problems
and appears as an `UnclearItem` with reason `conflicting`. -/
theorem claim_C5 :
    (∀ (items : List MProb) (response : String), 1 < items.length →
      ∀ it ∈ items,
        (it ∈ (resolveConflicts items response).2 ↔
          (containsStr response "CONFLICT:" = true
           ∧ containsStr response it.text = true))
        ∧ (it ∈ (resolveConflicts items response).1 ↔
          ¬(containsStr response "CONFLICT:" = true
            ∧ containsStr response it.text = true)))
    ∧ (∀ (docs : List InputDocument) (mode : Mode) (ef : InputDocument → Extraction)
        (resp st : String) (snap : ClinicalSnapshot),
        compile docs mode ef resp st = .ok snap →
        ∀ it ∈ (resolveAllConflicts (mergeExtractions docs ef) resp).2,
          (∀ p ∈ snap.active_problems, p.text ≠ it.text)
          ∧ (∃ u ∈ snap.unclear_items, u.reason = "conflicting"
              ∧ u.description = "Conflicting information: " ++ it.text
              ∧ u.source_ids = [it.source_id])) := by
  constructor
  · intro items response hlen it hit
    unfold resolveConflicts
    rw [if_neg (by omega)]
    cases hA : containsStr response "CONFLICT:" <;>
      cases hB : containsStr response it.text <;>
        simp [List.mem_filter, hit, isConflictItem, hA, hB]
  · intro docs mode ef resp st snap hc it hit
    unfold compile at hc
    by_cases he : docs.isEmpty
    · rw [if_pos he] at hc
      exact absurd hc (fun h => Except.noConfusion h)
    rw [if_neg he] at hc
    injection hc with hc
    subst hc
    unfold resolveAllConflicts at hit ⊢
    by_cases hlen : 1 < (mergeExtractions docs ef).active_problems.length
    · rw [if_pos hlen] at hit ⊢
      unfold resolveConflicts at hit ⊢
      rw [if_neg (by omega)] at hit ⊢
      constructor
      · intro p hp hpt
        simp only [buildSnapshot, prioritize_active_problems, List.mem_map] at hp
        obtain ⟨q, hq, rfl⟩ := hp
        simp only at hpt
        have hqf := (List.mem_filter.mp hq).2
        have hitc := (List.mem_filter.mp hit).2
        rw [Bool.not_eq_true'] at hqf
        unfold isConflictItem at hqf hitc
        rw [hpt] at hqf
        rw [hitc] at hqf
        exact Bool.false_ne_true hqf.symm
      · refine ⟨⟨"Conflicting information: " ++ it.text, "conflicting",
          [it.source_id], [it.text]⟩, ?_, rfl, rfl, rfl⟩
        simp only [buildSnapshot]
        refine List.mem_append_right _ ?_
        exact List.mem_map_of_mem _ hit
    · rw [if_neg hlen] at hit
      exact absurd hit (by simp)

/-- Generation response for the C5 witness scenario. -/
def wResp : String := "CONFLICT: appendicitis | duplicate | reason"

def wDocA : InputDocument := { id := "d1", source_type := .typed_note, content := "" }

def wDocB : InputDocument := { id := "d2", source_type := .typed_note, content := "" }

/-- Extraction oracle for the C5 witness scenario. -/
def wEf : InputDocument → Extraction := fun d =>
  if d.id = "d1" then { active_problems := [⟨"pneumonia"⟩] }
  else { active_problems := [⟨"appendicitis"⟩] }

/-- C5 witness: both parts applied to a two-document run whose response
flags "appendicitis" with the CONFLICT token. -/
theorem claim_C5_witness :
    ((⟨"appendicitis", "d2", none⟩ : MProb) ∈
        (resolveConflicts [⟨"pneumonia", "d1", none⟩, ⟨"appendicitis", "d2", none⟩]
          wResp).2 ↔
      (containsStr wResp "CONFLICT:" = true ∧ containsStr wResp "appendicitis" = true))
    ∧ ((∀ p ∈ (buildSnapshot [wDocA, wDocB]
          (prioritizeForMode
            (resolveAllConflicts (mergeExtractions [wDocA, wDocB] wEf) wResp).1
            Mode.general)
          (resolveAllConflicts (mergeExtractions [wDocA, wDocB] wEf) wResp).2 "st"
          Mode.general).active_problems,
          p.text ≠ (⟨"appendicitis", "d2", none⟩ : MProb).text)
       ∧ (∃ u ∈ (buildSnapshot [wDocA, wDocB]
          (prioritizeForMode
            (resolveAllConflicts (mergeExtractions [wDocA, wDocB] wEf) wResp).1
            Mode.general)
          (resolveAllConflicts (mergeExtractions [wDocA, wDocB] wEf) wResp).2 "st"
          Mode.general).unclear_items, u.reason = "conflicting"
            ∧ u.description = "Conflicting information: " ++
                (⟨"appendicitis", "d2", none⟩ : MProb).text
            ∧ u.source_ids = [(⟨"appendicitis", "d2", none⟩ : MProb).source_id])) :=
  ⟨((claim_C5.1 [⟨"pneumonia", "d1", none⟩, ⟨"appendicitis", "d2", none⟩] wResp
      (by decide) ⟨"appendicitis", "d2", none⟩ (by decide)).1),
   claim_C5.2 [wDocA, wDocB] Mode.general wEf wResp "st" _ (by decide)
     ⟨"appendicitis", "d2", none⟩ (by decide)⟩

/-- C6: deduplication of merged pending items keeps an item iff no
earlier item has the same trimmed, lowercased text (the kept occurrence
surviving verbatim, hence with its original source id), and
"Chase bloods"/" chase BLOODS " merge to the first occurrence. -/
theorem claim_C6 :
    (∀ l : List MItem, dedupPending l = specDedup l)
    ∧ dedupPending [⟨"Chase bloods", "a"⟩, ⟨" chase BLOODS ", "b"⟩] =
        [⟨"Chase bloods", "a"⟩] := by
  constructor
  · intro l
    rw [dedupPending, dedupAux_eq_specDedup]
    congr 1
    simp
  · decide

/-- C7: in handover mode pending tasks are reordered by urgency score
with a stable sort — the result is a permutation, is sorted by score,
and preserves the merge order within each score class — while
discharge, gp_summary and general leave the data unchanged; the
three-item example reorders as the claim states. -/
theorem claim_C7 :
    (∀ l : List MItem,
      (sortByUrgency l).Perm l
      ∧ (sortByUrgency l).Pairwise (fun a b => urgencyScore a ≤ urgencyScore b)
      ∧ ∀ s : Nat, (sortByUrgency l).filter (fun i => urgencyScore i == s) =
          l.filter (fun i => urgencyScore i == s))
    ∧ (∀ m : Merged,
        prioritizeForMode m Mode.handover = { m with pending := sortByUrgency m.pending }
        ∧ prioritizeForMode m Mode.discharge = m
        ∧ prioritizeForMode m Mode.gp_summary = m
        ∧ prioritizeForMode m Mode.general = m)
    ∧ sortByUrgency [⟨"Routine bloods", "a"⟩, ⟨"Urgent cardiology review", "b"⟩,
        ⟨"Family update tomorrow", "c"⟩] =
      [⟨"Urgent cardiology review", "b"⟩, ⟨"Family update tomorrow", "c"⟩,
       ⟨"Routine bloods", "a"⟩] :=
  ⟨fun l => ⟨sortByUrgency_perm l, sortByUrgency_sorted l, sortByUrgency_stable l⟩,
   fun m => ⟨rfl, rfl, rfl, rfl⟩, by decide⟩

/-- C8: `compile` fails with the input error exactly on an empty
document list; otherwise it produces a snapshot whose document count is
the input length, whose `sources` maps each document id to
"{sourceType}: {filename or unnamed}", and all of whose list entries
carry source ids that are keys of `sources`. -/
theorem claim_C8 :
    ∀ (docs : List InputDocument) (mode : Mode) (ef : InputDocument → Extraction)
      (resp st : String),
      (docs = [] → compile docs mode ef resp st = .error "No documents provided to compile")
      ∧ (docs ≠ [] → ∃ snap : ClinicalSnapshot,
          compile docs mode ef resp st = .ok snap
          ∧ snap.input_document_count = docs.length
          ∧ (∀ d ∈ docs, (d.id, sourceLabel d) ∈ snap.sources)
          ∧ (∀ p ∈ snap.active_problems, p.source_id ∈ snap.sources.map Prod.fst)
          ∧ (∀ e ∈ snap.key_events, e.source_id ∈ snap.sources.map Prod.fst)
          ∧ (∀ t ∈ snap.pending_tasks, t.source_id ∈ snap.sources.map Prod.fst)
          ∧ (∀ r ∈ snap.risks, r.source_id ∈ snap.sources.map Prod.fst)
          ∧ (∀ u ∈ snap.unclear_items, ∀ sid ∈ u.source_ids,
              sid ∈ snap.sources.map Prod.fst)) := by
  intro docs mode ef resp st
  constructor
  · intro h
    subst h
    rfl
  intro h
  have hkeys : (docs.map fun d => (d.id, sourceLabel d)).map Prod.fst =
      docs.map InputDocument.id := by
    rw [List.map_map]
    rfl
  have hmergedP : ∀ q ∈ (mergeExtractions docs ef).active_problems,
      q.source_id ∈ docs.map InputDocument.id := by
    intro q hq
    simp only [mergeExtractions, List.mem_flatMap, List.mem_map] at hq
    obtain ⟨d, hd, r, _, rfl⟩ := hq
    exact List.mem_map_of_mem _ hd
  have hmergedPe : ∀ q ∈ (mergeExtractions docs ef).pending,
      q.source_id ∈ docs.map InputDocument.id := by
    intro q hq
    simp only [mergeExtractions, List.mem_flatMap, List.mem_map] at hq
    obtain ⟨d, hd, r, _, rfl⟩ := hq
    exact List.mem_map_of_mem _ hd
  have hmergedR : ∀ q ∈ (mergeExtractions docs ef).risks,
      q.source_id ∈ docs.map InputDocument.id := by
    intro q hq
    simp only [mergeExtractions, List.mem_flatMap, List.mem_map] at hq
    obtain ⟨d, hd, r, _, rfl⟩ := hq
    exact List.mem_map_of_mem _ hd
  have hmergedU : ∀ q ∈ (mergeExtractions docs ef).unclear,
      q.source_id ∈ docs.map InputDocument.id := by
    intro q hq
    simp only [mergeExtractions, List.mem_flatMap, List.mem_map] at hq
    obtain ⟨d, hd, r, _, rfl⟩ := hq
    exact List.mem_map_of_mem _ hd
  have hmergedE : ∀ q ∈ (mergeExtractions docs ef).events,
      q.source_id ∈ docs.map InputDocument.id := by
    intro q hq
    simp only [mergeExtractions, List.mem_flatMap, List.mem_map] at hq
    obtain ⟨d, hd, r, _, rfl⟩ := hq
    exact List.mem_map_of_mem _ hd
  have hresP : ∀ q ∈ ((resolveAllConflicts (mergeExtractions docs ef) resp).1).active_problems,
      q ∈ (mergeExtractions docs ef).active_problems := by
    intro q hq
    unfold resolveAllConflicts at hq
    split at hq
    · unfold resolveConflicts at hq
      split at hq
      · exact hq
      · exact (List.mem_filter.mp hq).1
    · exact hq
  have hresPe : ∀ q ∈ ((resolveAllConflicts (mergeExtractions docs ef) resp).1).pending,
      q ∈ (mergeExtractions docs ef).pending := by
    intro q hq
    unfold resolveAllConflicts at hq
    split at hq <;> exact mem_dedupAux hq
  have hresR : ((resolveAllConflicts (mergeExtractions docs ef) resp).1).risks =
      (mergeExtractions docs ef).risks := by
    unfold resolveAllConflicts
    split <;> rfl
  have hresU : ((resolveAllConflicts (mergeExtractions docs ef) resp).1).unclear =
      (mergeExtractions docs ef).unclear := by
    unfold resolveAllConflicts
    split <;> rfl
  have hresE : ((resolveAllConflicts (mergeExtractions docs ef) resp).1).events =
      (mergeExtractions docs ef).events := by
    unfold resolveAllConflicts
    split <;> rfl
  have hconf : ∀ q ∈ (resolveAllConflicts (mergeExtractions docs ef) resp).2,
      q ∈ (mergeExtractions docs ef).active_problems := by
    intro q hq
    unfold resolveAllConflicts at hq
    split at hq
    · unfold resolveConflicts at hq
      split at hq
      · exact absurd hq (by simp)
      · exact (List.mem_filter.mp hq).1
    · exact absurd hq (by simp)
  refine ⟨buildSnapshot docs
      (prioritizeForMode (resolveAllConflicts (mergeExtractions docs ef) resp).1 mode)
      (resolveAllConflicts (mergeExtractions docs ef) resp).2 st mode,
      ?_, rfl, ?_, ?_, ?_, ?_, ?_, ?_⟩
  · unfold compile
    rw [if_neg (by simpa [List.isEmpty_iff] using h)]
  · intro d hd
    exact List.mem_map_of_mem _ hd
  · intro p hp
    simp only [buildSnapshot, List.mem_map, prioritize_active_problems] at hp
    obtain ⟨q, hq, rfl⟩ := hp
    rw [show (buildSnapshot docs _ _ st mode).sources =
      docs.map (fun d => (d.id, sourceLabel d)) from rfl, hkeys]
    exact hmergedP q (hresP q hq)
  · intro e he
    simp only [buildSnapshot, List.mem_map] at he
    obtain ⟨q, hq, rfl⟩ := he
    rw [show (buildSnapshot docs _ _ st mode).sources =
      docs.map (fun d => (d.id, sourceLabel d)) from rfl, hkeys]
    have hq' : q ∈ ((resolveAllConflicts (mergeExtractions docs ef) resp).1).events := by
      have hmode : (prioritizeForMode (resolveAllConflicts (mergeExtractions docs ef)
          resp).1 mode).events =
          ((resolveAllConflicts (mergeExtractions docs ef) resp).1).events := by
        cases mode <;> rfl
      rwa [hmode] at hq
    exact hmergedE q (hresE ▸ hq')
  · intro t ht
    simp only [buildSnapshot, List.mem_map] at ht
    obtain ⟨q, hq, rfl⟩ := ht
    rw [show (buildSnapshot docs _ _ st mode).sources =
      docs.map (fun d => (d.id, sourceLabel d)) from rfl, hkeys]
    exact hmergedPe q (hresPe q (mem_prioritized_pending hq))
  · intro r hr
    simp only [buildSnapshot, List.mem_map] at hr
    obtain ⟨q, hq, rfl⟩ := hr
    rw [show (buildSnapshot docs _ _ st mode).sources =
      docs.map (fun d => (d.id, sourceLabel d)) from rfl, hkeys]
    have hq' : q ∈ ((resolveAllConflicts (mergeExtractions docs ef) resp).1).risks := by
      have hmode : (prioritizeForMode (resolveAllConflicts (mergeExtractions docs ef)
          resp).1 mode).risks =
          ((resolveAllConflicts (mergeExtractions docs ef) resp).1).risks := by
        cases mode <;> rfl
      rwa [hmode] at hq
    exact hmergedR q (hresR ▸ hq')
  · intro u hu sid hsid
    rw [show (buildSnapshot docs _ _ st mode).sources =
      docs.map (fun d => (d.id, sourceLabel d)) from rfl, hkeys]
    simp only [buildSnapshot, List.mem_append, List.mem_map] at hu
    rcases hu with ⟨q, hq, rfl⟩ | ⟨q, hq, rfl⟩
    · simp only [List.mem_singleton] at hsid
      subst hsid
      have hq' : q ∈ ((resolveAllConflicts (mergeExtractions docs ef) resp).1).unclear := by
        have hmode : (prioritizeForMode (resolveAllConflicts (mergeExtractions docs ef)
            resp).1 mode).unclear =
            ((resolveAllConflicts (mergeExtractions docs ef) resp).1).unclear := by
          cases mode <;> rfl
        rwa [hmode] at hq
      exact hmergedU q (hresU ▸ hq')
    · simp only [List.mem_singleton] at hsid
      subst hsid
      exact hmergedP q (hconf q hq)

/-- C8 witness: the empty-list error and the snapshot invariants for a
concrete one-document run. -/
theorem claim_C8_witness :
    compile [] Mode.general (fun _ => {}) "" "" =
      .error "No documents provided to compile"
    ∧ ∃ snap : ClinicalSnapshot,
        compile [wDocA] Mode.general (fun _ => {}) "" "" = .ok snap
        ∧ snap.input_document_count = [wDocA].length
        ∧ (∀ d ∈ [wDocA], (d.id, sourceLabel d) ∈ snap.sources)
        ∧ (∀ p ∈ snap.active_problems, p.source_id ∈ snap.sources.map Prod.fst)
        ∧ (∀ e ∈ snap.key_events, e.source_id ∈ snap.sources.map Prod.fst)
        ∧ (∀ t ∈ snap.pending_tasks, t.source_id ∈ snap.sources.map Prod.fst)
        ∧ (∀ r ∈ snap.risks, r.source_id ∈ snap.sources.map Prod.fst)
        ∧ (∀ u ∈ snap.unclear_items, ∀ sid ∈ u.source_ids,
            sid ∈ snap.sources.map Prod.fst) :=
  ⟨(claim_C8 [] Mode.general (fun _ => {}) "" "").1 rfl,
   (claim_C8 [wDocA] Mode.general (fun _ => {}) "" "").2 (List.cons_ne_nil _ _)⟩

/-- `json.loads` on the single well-formed block the C9 scenario uses. -/
def demoLoads : String → Option (List (String × Json)) := fun s =>
  if s = "\x7b\"problems\": 5\x7d" then some [("problems", Json.num (Rat.divInt 5 1))]
  else none

def demoDoc : InputDocument :=
  { id := "doc-a", source_type := .other, content := "" }

/-- C9: the claim fails on the code.  The response `{"problems": 5}` is
well-formed JSON, so pass 1 parses it, but `_pass2_verify` then iterates
the integer 5 and raises `TypeError`, aborting `extract` — contradicting
"extract completes without raising" for every response.  The second
conjunct shows the part that does hold: a response with no structured
block degrades to empty extraction categories. -/
theorem claim_C9 :
    multipassExtract demoLoads demoDoc "\x7b\"problems\": 5\x7d" =
      .error "TypeError: not iterable"
    ∧ multipassExtract demoLoads demoDoc "no structured block here" =
      .ok { document_id := "doc-a", document_type := "other", extractions := [],
            safety_alerts := [], missing_mandatory := ["Allergy status not documented"] } := by
  constructor
  · decide
  · decide

/-- C10: a pending text containing "critical" and no other urgency
keyword gets sorter score 0 but snapshot urgency "routine", and one
containing only "important" gets score 1 but urgency "routine" — the
two keyword lists disagree. -/
theorem claim_C10 : ∀ text : String,
    (containsStr (pyLowerStr text) "critical" = true →
     containsStr (pyLowerStr text) "urgent" = false →
     containsStr (pyLowerStr text) "immediately" = false →
     containsStr (pyLowerStr text) "asap" = false →
     containsStr (pyLowerStr text) "stat" = false →
     containsStr (pyLowerStr text) "emergency" = false →
     containsStr (pyLowerStr text) "soon" = false →
     containsStr (pyLowerStr text) "today" = false →
     containsStr (pyLowerStr text) "tomorrow" = false →
     containsStr (pyLowerStr text) "priority" = false →
     urgencyScore ⟨text, "s"⟩ = 0 ∧ detectUrgency text = "routine")
    ∧ (containsStr (pyLowerStr text) "important" = true →
       containsStr (pyLowerStr text) "critical" = false →
       containsStr (pyLowerStr text) "urgent" = false →
       containsStr (pyLowerStr text) "immediately" = false →
       containsStr (pyLowerStr text) "asap" = false →
       containsStr (pyLowerStr text) "stat" = false →
       containsStr (pyLowerStr text) "emergency" = false →
       containsStr (pyLowerStr text) "soon" = false →
       containsStr (pyLowerStr text) "today" = false →
       containsStr (pyLowerStr text) "tomorrow" = false →
       containsStr (pyLowerStr text) "priority" = false →
       urgencyScore ⟨text, "s"⟩ = 1 ∧ detectUrgency text = "routine") := by
  intro text
  constructor
  · intro hcrit hu him ha hst hem hso hto htom hpr
    constructor
    · unfold urgencyScore highUrgencyKeywords
      simp [hcrit]
    · unfold detectUrgency
      simp [hu, him, ha, hst, hem, hso, hto, htom, hpr]
  · intro himp hcrit hu him ha hst hem hso hto htom hpr
    constructor
    · unfold urgencyScore highUrgencyKeywords mediumUrgencyKeywords
      simp [himp, hcrit, hu, him, ha, hst, hem]
    · unfold detectUrgency
      simp [hu, him, ha, hst, hem, hso, hto, htom, hpr]

/-- C10 witness: the disagreement at the texts "critical review" and
"chase important result". -/
theorem claim_C10_witness :
    (urgencyScore ⟨"critical review", "s"⟩ = 0
     ∧ detectUrgency "critical review" = "routine")
    ∧ (urgencyScore ⟨"chase important result", "s"⟩ = 1
       ∧ detectUrgency "chase important result" = "routine") :=
  ⟨(claim_C10 "critical review").1 (by decide) (by decide) (by decide) (by decide)
      (by decide) (by decide) (by decide) (by decide) (by decide) (by decide),
   (claim_C10 "chase important result").2 (by decide) (by decide) (by decide) (by decide)
      (by decide) (by decide) (by decide) (by decide) (by decide) (by decide) (by decide)⟩

end Clinity
